import Mathlib

/-!
Verification of the resource-teardown orchestrator in
`02-use-cases/A2A-multi-agent-incident-response/cleanup.py`.

The script drives an external Resource Backend (the `aws` CLI, reached through
`run_command`, which returns a pair `(success, output)`).  We embed every
backend interaction as such a pair and every sequence of status polls as a
function from the poll index to such a pair.  The control flow of the script
is translated function by function; printed messages that carry no control
flow are dropped, except where a claim refers to them, in which case they are
recorded as explicit events.
-/

set_option maxHeartbeats 1000000

namespace Cleanup

/-- Char-list test: does the second list begin with the first one?
Helper for the substring search below. -/
def beginsWith : List Char → List Char → Bool
  | [], _ => true
  | _ :: _, [] => false
  | a :: pa, b :: sb => a == b && beginsWith pa sb

/-- Substring containment on char lists (every Python `pat in s` check on
strings in cleanup.py is this). -/
def occursIn (pat : List Char) : List Char → Bool
  | [] => pat.isEmpty
  | c :: rest => beginsWith pat (c :: rest) || occursIn pat rest

/-- Python's `pat in s` substring operator on strings. -/
def containsSub (s pat : String) : Bool := occursIn pat.data s.data

/-- Whitespace recognizer for Python's `str.strip()` (ASCII whitespace; the
source only ever strips command output and user input, compared against ASCII
literals). -/
def isSpaceChar (c : Char) : Bool :=
  c == ' ' || c == '\t' || c == '\n' || c == '\r' || c == '\x0b' || c == '\x0c'

/-- Python's `s.strip()`: remove leading and trailing whitespace. -/
def strip (s : String) : String :=
  ⟨((s.data.dropWhile isSpaceChar).reverse.dropWhile isSpaceChar).reverse⟩

/-- ASCII lowering of one character, as Python's `str.lower()` acts on the
ASCII range (every literal the source compares against is ASCII). -/
def lowerChar (c : Char) : Char :=
  if 'A' ≤ c && c ≤ 'Z' then Char.ofNat (c.toNat + 32) else c

/-- Python's `s.lower()` on the ASCII range. -/
def lower (s : String) : String :=
  ⟨s.data.map lowerChar⟩

/-- Absence-marker classification shared by `wait_for_stack_deletion`
(cleanup.py lines 158-165) and `delete_stack` (lines 221-228): the lowercased
backend message contains "does not exist", "validationerror" or
"stack with id", or the message is blank after stripping. -/
def absenceMarker (output : String) : Bool :=
  containsSub (lower output) "does not exist"
    || containsSub (lower output) "validationerror"
    || containsSub (lower output) "stack with id"
    || strip output == ""

/-- One iteration of the body of the `while` loop in
`wait_for_stack_deletion` (cleanup.py lines 139-191), applied to the
`(success, output)` pair of the describe-stacks query of that iteration.
`some b` means the iteration returns `b` from the function; `none` means the
loop sleeps and keeps checking. -/
def pollStep (r : Bool × String) : Option Bool :=
  if !r.1 then
    if absenceMarker r.2 then some true else none
  else if r.2 ≠ "" then
    if strip r.2 = "DELETE_COMPLETE" then some true
    else if strip r.2 = "DELETE_FAILED" then some false
    else none
  else none

/-- The `while elapsed_time < max_wait_time` loop of
`wait_for_stack_deletion` (cleanup.py lines 135-197), with
`max_wait_time = 1800` and `wait_interval = 15`.  The poll issued at elapsed
time `e` is `polls (e / 15)`.  `fuel` counts the remaining iterations; the
initial call uses fuel 120 and elapsed 0, so `elapsed + 15 * fuel = 1800`
throughout and the fuel-zero base case coincides exactly with the loop
condition `elapsed_time < 1800` turning false, whereupon the source returns
False (timeout). -/
def waitLoop (polls : Nat → Bool × String) : Nat → Nat → Bool
  | 0, _ => false
  | fuel + 1, elapsed =>
    if elapsed < 1800 then
      match pollStep (polls (elapsed / 15)) with
      | some b => b
      | none => waitLoop polls fuel (elapsed + 15)
    else false

/-- `wait_for_stack_deletion(stack_name, region)` as a function of the
sequence of describe-stacks query results. -/
def wait_for_stack_deletion (polls : Nat → Bool × String) : Bool :=
  waitLoop polls 120 0

/-- Instrumented variant of `waitLoop` that also counts how many status
queries the loop issues. -/
def waitLoopTrace (polls : Nat → Bool × String) : Nat → Nat → Bool × Nat
  | 0, _ => (false, 0)
  | fuel + 1, elapsed =>
    if elapsed < 1800 then
      match pollStep (polls (elapsed / 15)) with
      | some b => (b, 1)
      | none =>
        let r := waitLoopTrace polls fuel (elapsed + 15)
        (r.1, r.2 + 1)
    else (false, 0)

/-- Result and poll count of a full `wait_for_stack_deletion` run. -/
def waitTrace (polls : Nat → Bool × String) : Bool × Nat :=
  waitLoopTrace polls 120 0

/-- Observable actions of a run: Resource Backend calls (one constructor per
`aws` invocation site), the skip message printed by `delete_stack` for an
already-absent stack, and the attempt to unlink the `.a2a.config` snapshot. -/
inductive Ev where
  | describeStack (stack_name : String)
  | deleteStackCmd (stack_name : String)
  | pollStatus (stack_name : String) (i : Nat)
  | msgSkipAbsent (stack_name : String)
  | headBucket (bucket_name : String)
  | emptyBucketCmd (bucket_name : String)
  | removeBucketCmd (bucket_name : String)
  | unlinkConfig
  deriving DecidableEq

/-- Backend responses one stack-deletion task can observe: the result of the
initial describe-stacks existence check, the result of the delete-stack
command, and the sequence of describe-stacks poll results. -/
structure StackEnv where
  describeRes : Bool × String
  deleteRes : Bool × String
  polls : Nat → Bool × String

/-- `delete_stack(stack_name, region, step_name)` (cleanup.py lines 200-254)
as a function of the backend responses, also returning the list of backend
calls it issues (plus the "does not exist, skipping" message, which claim C5
refers to).  The `region` argument only feeds the CLI command line and is
dropped. -/
def delete_stack (stack_name : String) (env : StackEnv) : Bool × List Ev :=
  if !env.describeRes.1 then
    if absenceMarker env.describeRes.2 then
      (true, [Ev.describeStack stack_name, Ev.msgSkipAbsent stack_name])
    else
      (false, [Ev.describeStack stack_name])
  else
    if env.deleteRes.1 then
      let w := waitTrace env.polls
      (w.1, [Ev.describeStack stack_name, Ev.deleteStackCmd stack_name]
        ++ (List.range w.2).map (Ev.pollStatus stack_name))
    else
      (false, [Ev.describeStack stack_name, Ev.deleteStackCmd stack_name])

/-- Backend responses one bucket-cleanup task can observe: head-bucket,
`s3 rm --recursive`, and `s3 rb` results. -/
structure BucketEnv where
  headRes : Bool × String
  rmRes : Bool × String
  rbRes : Bool × String

/-- `empty_s3_bucket(bucket_name, region)` (cleanup.py lines 257-283).  Note
that once the head-bucket existence check succeeds, both branches after the
`s3 rm` call return True (the source comments "Continue even if empty
fails"); the branches are kept separate to mirror the source. -/
def empty_s3_bucket (bucket_name : String) (env : BucketEnv) : Bool × List Ev :=
  if !env.headRes.1 then
    if containsSub env.headRes.2 "404" || containsSub env.headRes.2 "Not Found" then
      (true, [Ev.headBucket bucket_name])
    else
      (false, [Ev.headBucket bucket_name])
  else
    if env.rmRes.1 || containsSub env.rmRes.2 "remove" then
      (true, [Ev.headBucket bucket_name, Ev.emptyBucketCmd bucket_name])
    else
      (true, [Ev.headBucket bucket_name, Ev.emptyBucketCmd bucket_name])

/-- `delete_s3_bucket(bucket_name, region)` (cleanup.py lines 286-302): a
failed `s3 rb` is still a success when its output contains the
case-sensitive substring "NoSuchBucket" or "does not exist". -/
def delete_s3_bucket (bucket_name : String) (rbRes : Bool × String) : Bool × List Ev :=
  if rbRes.1 then
    (true, [Ev.removeBucketCmd bucket_name])
  else if containsSub rbRes.2 "NoSuchBucket" || containsSub rbRes.2 "does not exist" then
    (true, [Ev.removeBucketCmd bucket_name])
  else
    (false, [Ev.removeBucketCmd bucket_name])

/-- `cleanup_s3_bucket(bucket_name, region)` (cleanup.py lines 305-312):
empty, then delete unconditionally; the return value is the delete result. -/
def cleanup_s3_bucket (bucket_name : String) (env : BucketEnv) : Bool × List Ev :=
  let e := empty_s3_bucket bucket_name env
  let d := delete_s3_bucket bucket_name env.rbRes
  (d.1, e.2 ++ d.2)

/-- The configuration snapshot loaded from `.a2a.config` (the fields
cleanup.py reads). -/
structure Config where
  host_agent : String
  web_search_agent : String
  monitoring_agent : String
  cognito : String
  smithy_models_bucket : String
  region : String

/-- All backend responses one run can observe, plus the state of the
`.a2a.config` file at the unlink step (`configExists`: `config_path.exists()`
at line 454; `unlinkOk`: whether `config_path.unlink()` succeeds rather than
raising). -/
structure Env where
  hostStack : StackEnv
  webStack : StackEnv
  monStack : StackEnv
  cognitoStack : StackEnv
  bucket : BucketEnv
  configExists : Bool
  unlinkOk : Bool

/-- Whether `delete_stack_parallel`'s `try` block raises for each of the
three agent-stack tasks (true = an unexpected exception is thrown; the model
places it before the first backend call of the task). -/
structure ExnFlags where
  host : Bool
  web : Bool
  mon : Bool

/-- `delete_stack_parallel` (cleanup.py lines 315-326): runs `delete_stack`
under a `try/except` that converts any exception into `(step_name, False)`. -/
def delete_stack_parallel (stack_name step_name : String) (env : StackEnv) (raises : Bool) :
    (String × Bool) × List Ev :=
  if raises then ((step_name, false), [])
  else
    let r := delete_stack stack_name env
    ((step_name, r.1), r.2)

/-- `delete_agent_stacks_parallel` (cleanup.py lines 329-377).  The three
tasks share no state; completion order only affects print interleaving and
the iteration order of the `results` dict, over which the source takes
`all(results.values())`, so the denotation lists the outcomes in submission
order and takes the conjunction. -/
def delete_agent_stacks_parallel (cfg : Config) (env : Env) (ex : ExnFlags) :
    Bool × List Ev × List (String × Bool) :=
  let h := delete_stack_parallel cfg.host_agent "Host Agent Stack" env.hostStack ex.host
  let w := delete_stack_parallel cfg.web_search_agent "Web Search Agent Stack" env.webStack ex.web
  let m := delete_stack_parallel cfg.monitoring_agent "Monitoring Agent Stack" env.monStack ex.mon
  (h.1.2 && w.1.2 && m.1.2, h.2 ++ w.2 ++ m.2, [h.1, w.1, m.1])

/-- Observable outcome of `run_cleanup`: its return value, whether the typed
confirmation was accepted, every backend call issued, the per-task outcomes
(task label, success flag) in plan order, and whether the `.a2a.config`
snapshot was actually removed from disk. -/
structure RunOut where
  result : Bool
  confirmed : Bool
  events : List Ev
  outcomes : List (String × Bool)
  configRemoved : Bool
  deriving DecidableEq

/-- `run_cleanup(config, parallel)` (cleanup.py lines 380-477).  `confirm` is
the confirmation value captured by the `get_input` call at lines 391-395
(modelled separately as `get_input`); the source compares it with the literal
"DELETE" at line 397 and cancels (returning False) on mismatch before any
backend call.  After the five tasks, lines 452-460 unlink `.a2a.config`
whenever it exists, independently of `all_success`. -/
def run_cleanup (cfg : Config) (confirm : String) (parallel : Bool) (env : Env)
    (ex : ExnFlags) : RunOut :=
  if confirm ≠ "DELETE" then
    { result := false, confirmed := false, events := [], outcomes := [], configRemoved := false }
  else
    let agents :=
      if parallel then delete_agent_stacks_parallel cfg env ex
      else
        let h := delete_stack cfg.host_agent env.hostStack
        let w := delete_stack cfg.web_search_agent env.webStack
        let m := delete_stack cfg.monitoring_agent env.monStack
        (h.1 && w.1 && m.1, h.2 ++ w.2 ++ m.2,
          [("Host Agent Stack", h.1), ("Web Search Agent Stack", w.1),
            ("Monitoring Agent Stack", m.1)])
    let cog := delete_stack cfg.cognito env.cognitoStack
    let buc := cleanup_s3_bucket cfg.smithy_models_bucket env.bucket
    let allSuccess := agents.1 && cog.1 && buc.1
    { result := allSuccess
      confirmed := true
      events := agents.2.1 ++ cog.2 ++ buc.2
        ++ (if env.configExists then [Ev.unlinkConfig] else [])
      outcomes := agents.2.2 ++ [("Cognito Stack", cog.1), ("S3 Bucket", buc.1)]
      configRemoved := env.configExists && env.unlinkOk }

/-- Python truthiness of the `default` argument in `get_input`
(`if default:` / `elif default:`): not None and not the empty string. -/
def defaultTruthy : Option String → Bool
  | none => false
  | some d => d != ""

/-- `get_input(prompt, default, required)` (cleanup.py lines 88-105) as a
function of the successive raw `input()` lines.  Each line is stripped; a
non-empty stripped value is returned, otherwise a truthy default is
returned, otherwise a non-required prompt returns "", otherwise the prompt
repeats on the next line.  `none` means every supplied line was consumed
without an answer (the source would still be waiting for input). -/
def get_input (default : Option String) (required : Bool) : List String → Option String
  | [] => none
  | v :: rest =>
    let value := strip v
    if value ≠ "" then some value
    else if defaultTruthy default then default
    else if !required then some ""
    else get_input default required rest

/-- `main()` (cleanup.py lines 497-555) as a function of the captured prompt
answers.  `interrupted` models a KeyboardInterrupt during the run (caught at
line 547, exit 1).  `config = none` models a missing/empty `.a2a.config`
(exit 1, no resources touched).  `proceedAns` and `parallelAns` are the
values captured by the two yes/no `get_input` calls (the source lowercases
them and tests membership in ["yes", "y"]); `confirm` is the captured typed
confirmation passed down to `run_cleanup`.  The return value is the process
exit code. -/
def mainModel (config : Option Config) (interrupted : Bool)
    (proceedAns parallelAns confirm : String) (env : Env) (ex : ExnFlags) : Nat :=
  if interrupted then 1
  else
    match config with
    | none => 1
    | some cfg =>
      let proceed := (["yes", "y"] : List String).contains (lower proceedAns)
      if !proceed then 0
      else
        let use_parallel := (["yes", "y"] : List String).contains (lower parallelAns)
        if (run_cleanup cfg confirm use_parallel env ex).result then 0 else 1

lemma waitLoopTrace_count_le (polls : Nat → Bool × String) :
    ∀ fuel elapsed, (waitLoopTrace polls fuel elapsed).2 ≤ fuel := by
  intro fuel
  induction fuel with
  | zero => intro e; simp [waitLoopTrace]
  | succ f ih =>
    intro e
    simp only [waitLoopTrace]
    by_cases he : e < 1800
    · simp only [he, if_true]
      cases hps : pollStep (polls (e / 15)) with
      | some b => simp
      | none => simpa using Nat.succ_le_succ (ih (e + 15))
    · simp [he]

lemma waitLoopTrace_fst (polls : Nat → Bool × String) :
    ∀ fuel elapsed, (waitLoopTrace polls fuel elapsed).1 = waitLoop polls fuel elapsed := by
  intro fuel
  induction fuel with
  | zero => intro e; simp [waitLoopTrace, waitLoop]
  | succ f ih =>
    intro e
    simp only [waitLoopTrace, waitLoop]
    by_cases he : e < 1800
    · simp only [he, if_true]
      cases hps : pollStep (polls (e / 15)) with
      | some b => simp
      | none => simpa using ih (e + 15)
    · simp [he]

lemma waitLoopTrace_timeout (polls : Nat → Bool × String) :
    ∀ fuel elapsed, elapsed + 15 * fuel = 1800 →
      (∀ j, j < fuel → pollStep (polls (elapsed / 15 + j)) = none) →
      waitLoopTrace polls fuel elapsed = (false, fuel) := by
  intro fuel
  induction fuel with
  | zero => intro e _ _; simp [waitLoopTrace]
  | succ f ih =>
    intro e hsum hnone
    have he : e < 1800 := by omega
    have h0 : pollStep (polls (e / 15)) = none := by
      simpa using hnone 0 (Nat.succ_pos f)
    have hshift : (e + 15) / 15 = e / 15 + 1 := Nat.add_div_right e (by norm_num)
    have hrec : waitLoopTrace polls f (e + 15) = (false, f) := by
      apply ih (e + 15) (by omega)
      intro j hj
      rw [hshift]
      have hidx : e / 15 + 1 + j = e / 15 + (j + 1) := by omega
      rw [hidx]
      exact hnone (j + 1) (by omega)
    simp [waitLoopTrace, he, h0, hrec]

lemma waitLoopTrace_hit (polls : Nat → Bool × String) :
    ∀ (i fuel elapsed : Nat), elapsed + 15 * fuel = 1800 → i < fuel →
      (∀ j, j < i → pollStep (polls (elapsed / 15 + j)) = none) →
      ∀ b, pollStep (polls (elapsed / 15 + i)) = some b →
      waitLoopTrace polls fuel elapsed = (b, i + 1) := by
  intro i
  induction i with
  | zero =>
    intro fuel e hsum hlt hprev b hb
    obtain ⟨f, rfl⟩ : ∃ f, fuel = f + 1 := ⟨fuel - 1, by omega⟩
    have he : e < 1800 := by omega
    have hb0 : pollStep (polls (e / 15)) = some b := by simpa using hb
    simp [waitLoopTrace, he, hb0]
  | succ i ih =>
    intro fuel e hsum hlt hprev b hb
    obtain ⟨f, rfl⟩ : ∃ f, fuel = f + 1 := ⟨fuel - 1, by omega⟩
    have he : e < 1800 := by omega
    have h0 : pollStep (polls (e / 15)) = none := by
      simpa using hprev 0 (Nat.succ_pos i)
    have hshift : (e + 15) / 15 = e / 15 + 1 := Nat.add_div_right e (by norm_num)
    have hrec : waitLoopTrace polls f (e + 15) = (b, i + 1) := by
      refine ih f (e + 15) (by omega) (by omega) ?_ b ?_
      · intro j hj
        rw [hshift]
        have hidx : e / 15 + 1 + j = e / 15 + (j + 1) := by omega
        rw [hidx]
        exact hprev (j + 1) (by omega)
      · rw [hshift]
        have hidx : e / 15 + 1 + i = e / 15 + (i + 1) := by omega
        rw [hidx]
        exact hb
    simp [waitLoopTrace, he, h0, hrec]

example : containsSub "Stack with id foo does not exist" "does not exist" = true := by decide
example : containsSub "ValidationError" "validationerror" = false := by decide
example : absenceMarker "An error occurred (ValidationError)" = true := by decide
example : absenceMarker "   " = true := by decide
example : absenceMarker "AccessDenied" = false := by decide
example : pollStep (true, "DELETE_COMPLETE") = some true := by decide
example : pollStep (true, " DELETE_FAILED ") = some false := by decide
example : pollStep (true, "DELETE_IN_PROGRESS") = none := by decide
example : pollStep (true, "") = none := by decide
example : pollStep (false, "boom") = none := by decide
example : pollStep (false, "does not exist") = some true := by decide
example : wait_for_stack_deletion (fun _ => (true, "DELETE_COMPLETE")) = true := by decide
example : waitTrace (fun _ => (true, "DELETE_IN_PROGRESS")) = (false, 120) := by decide

/-- Fixture: a stack the backend reports as already deleted at the
existence check. -/
def absentStack : StackEnv :=
  { describeRes := (false, "An error occurred (ValidationError): Stack with id demo does not exist")
    deleteRes := (true, "")
    polls := fun _ => (true, "DELETE_COMPLETE") }

/-- Fixture: a stack whose existence check fails with an unrecognized
error message. -/
def brokenStack : StackEnv :=
  { describeRes := (false, "AccessDenied")
    deleteRes := (true, "")
    polls := fun _ => (true, "DELETE_COMPLETE") }

/-- Fixture: a bucket that is found, emptied, and deleted cleanly. -/
def okBucket : BucketEnv :=
  { headRes := (true, "ok"), rmRes := (true, ""), rbRes := (true, "") }

/-- Fixture: a configuration snapshot. -/
def demoConfig : Config :=
  { host_agent := "host", web_search_agent := "web", monitoring_agent := "mon"
    cognito := "cog", smithy_models_bucket := "models", region := "us-east-1" }

/-- Fixture: every resource already absent or cleanly deletable, snapshot
file present, unlink succeeds. -/
def allAbsentEnv : Env :=
  { hostStack := absentStack, webStack := absentStack, monStack := absentStack
    cognitoStack := absentStack, bucket := okBucket
    configExists := true, unlinkOk := true }

/-- Fixture: like `allAbsentEnv` but the Cognito stack existence check fails
hard, so its deletion task fails. -/
def cognitoFailEnv : Env :=
  { allAbsentEnv with cognitoStack := brokenStack }

/-- Fixture: no agent-stack task raises. -/
def noExn : ExnFlags := { host := false, web := false, mon := false }

/-- C1: contrary to the claim that the `.a2a.config` snapshot is removed if
and only if the run ends with succeeded_all true, `run_cleanup` unlinks the
snapshot whenever it exists: on a run where the Cognito existence check
fails (so succeeded_all is false) the snapshot is still removed. -/
theorem c1_snapshot_removed_despite_failure :
    (run_cleanup demoConfig "DELETE" false cognitoFailEnv noExn).result = false
      ∧ (run_cleanup demoConfig "DELETE" false cognitoFailEnv noExn).configRemoved = true := by
  constructor <;> rfl

/-- C2 counterexample: with the configuration present, the proceed prompt
answered "yes" and the typed confirmation answered "no" (the user declining
cleanup at the typed confirmation), the process exits with code 1, not 0 as
the claim states. -/
theorem c2_confirm_decline_exits_one :
    ("no" : String) ≠ "DELETE"
      ∧ mainModel (some demoConfig) false "yes" "yes" "no" allAbsentEnv noExn = 1 := by
  exact ⟨by decide, rfl⟩

/-- C2 (amended): the exit code is 1 when the configuration is missing; for
a present configuration it is 0 exactly when the run is not interrupted and
either the user declines at the proceed prompt or `run_cleanup` succeeds
(which requires the typed confirmation to equal the literal "DELETE"); and
the exit code is always 0 or 1.  The original claim also counted a declined
typed confirmation as exit 0; the code exits 1 there. -/
lemma run_cleanup_cancel (cfg : Config) (c : String) (p : Bool) (env : Env) (ex : ExnFlags)
    (h : c ≠ "DELETE") :
    run_cleanup cfg c p env ex =
      { result := false, confirmed := false, events := [], outcomes := [],
        configRemoved := false } := by
  unfold run_cleanup
  rw [if_pos h]

theorem c2_exit_code_amended (cfg : Config) (intr : Bool) (pa qa c : String)
    (env : Env) (ex : ExnFlags) :
    (mainModel none intr pa qa c env ex = 1)
      ∧ (mainModel (some cfg) intr pa qa c env ex = 0 ↔
          intr = false ∧
            ((["yes", "y"] : List String).contains (lower pa) = false ∨
              (run_cleanup cfg c ((["yes", "y"] : List String).contains (lower qa))
                env ex).result = true))
      ∧ ((run_cleanup cfg c ((["yes", "y"] : List String).contains (lower qa))
            env ex).result = true → c = "DELETE")
      ∧ (mainModel (some cfg) intr pa qa c env ex = 0
          ∨ mainModel (some cfg) intr pa qa c env ex = 1) := by
  refine ⟨?_, ?_, ?_, ?_⟩
  · cases intr <;> rfl
  · cases intr with
    | true => simp [mainModel]
    | false =>
      simp only [mainModel]
      cases hp : (["yes", "y"] : List String).contains (lower pa) with
      | false => simp
      | true =>
        cases hr : (run_cleanup cfg c ((["yes", "y"] : List String).contains (lower qa))
            env ex).result with
        | false => simp [hr]
        | true => simp [hr]
  · intro hr
    by_cases hc : c = "DELETE"
    · exact hc
    · rw [run_cleanup_cancel cfg c _ env ex hc] at hr
      simp at hr
  · cases intr with
    | true => right; rfl
    | false =>
      simp only [mainModel]
      cases hp : (["yes", "y"] : List String).contains (lower pa) with
      | false => left; simp
      | true =>
        cases hr : (run_cleanup cfg c ((["yes", "y"] : List String).contains (lower qa))
            env ex).result with
        | false => right; simp [hr]
        | true => left; simp [hr]

/-- C3 counterexample: the bucket delete failure message "validationerror"
matches the absence-marker classification the claim refers to, yet
`delete_s3_bucket` reports failure on it: bucket deletion does not use the
absence markers. -/
theorem c3_bucket_markers_counterexample :
    absenceMarker "validationerror" = true
      ∧ (delete_s3_bucket "models" (false, "validationerror")).1 = false := by
  constructor <;> decide

/-- C3 (amended): for a bucket delete call that fails, the outcome is
success exactly when the failure message contains the case-sensitive
substring "NoSuchBucket" or "does not exist", and failure otherwise. -/
theorem c3_bucket_delete_classification (bucket_name : String) (rb : Bool × String)
    (h : rb.1 = false) :
    (delete_s3_bucket bucket_name rb).1 =
      (containsSub rb.2 "NoSuchBucket" || containsSub rb.2 "does not exist") := by
  obtain ⟨ok, out⟩ := rb
  cases h
  by_cases hc : (containsSub out "NoSuchBucket" || containsSub out "does not exist") = true <;>
    simp [delete_s3_bucket, hc]

/-- C3 witness: a concrete failing delete whose message names NoSuchBucket. -/
theorem c3_classification_witness :
    ((false, "NoSuchBucket: the bucket is gone") : Bool × String).1 = false
      ∧ (delete_s3_bucket "models" (false, "NoSuchBucket: the bucket is gone")).1 =
          (containsSub "NoSuchBucket: the bucket is gone" "NoSuchBucket"
            || containsSub "NoSuchBucket: the bucket is gone" "does not exist") :=
  ⟨rfl, c3_bucket_delete_classification "models" (false, "NoSuchBucket: the bucket is gone") rfl⟩

/-- C4: whenever the captured confirmation value differs from the literal
"DELETE", `run_cleanup` cancels before any Resource Backend call: it issues
no events (no existence check, delete, empty, status query, or unlink
attempt), records no outcomes, removes nothing, and returns False. -/
theorem c4_unconfirmed_no_backend_calls (cfg : Config) (confirm : String) (p : Bool)
    (env : Env) (ex : ExnFlags) (h : confirm ≠ "DELETE") :
    (run_cleanup cfg confirm p env ex).events = []
      ∧ (run_cleanup cfg confirm p env ex).outcomes = []
      ∧ (run_cleanup cfg confirm p env ex).configRemoved = false
      ∧ (run_cleanup cfg confirm p env ex).result = false := by
  refine ⟨?_, ?_, ?_, ?_⟩ <;> simp [run_cleanup, h]

/-- C4 witness: the lowercase confirmation "delete" issues no backend call. -/
theorem c4_unconfirmed_witness :
    ("delete" : String) ≠ "DELETE"
      ∧ ((run_cleanup demoConfig "delete" true allAbsentEnv noExn).events = []
        ∧ (run_cleanup demoConfig "delete" true allAbsentEnv noExn).outcomes = []
        ∧ (run_cleanup demoConfig "delete" true allAbsentEnv noExn).configRemoved = false
        ∧ (run_cleanup demoConfig "delete" true allAbsentEnv noExn).result = false) :=
  ⟨by decide, c4_unconfirmed_no_backend_calls demoConfig "delete" true allAbsentEnv noExn
    (by decide)⟩

/-- C5: when the pre-delete existence check fails, an absence-marker match
makes `delete_stack` return success having issued only the describe call
plus the already-absent skip message (in particular no delete command and no
status poll), while any other failure message makes the task return failure
after the describe call alone. -/
theorem c5_absent_stack_short_circuit (stack_name : String) (env : StackEnv)
    (h : env.describeRes.1 = false) :
    (absenceMarker env.describeRes.2 = true →
        delete_stack stack_name env =
          (true, [Ev.describeStack stack_name, Ev.msgSkipAbsent stack_name]))
      ∧ (absenceMarker env.describeRes.2 = false →
          delete_stack stack_name env = (false, [Ev.describeStack stack_name])) := by
  constructor <;> intro hm <;> simp [delete_stack, h, hm]

/-- C5 witness: a stack whose describe call fails with a ValidationError
"does not exist" message. -/
theorem c5_absent_stack_witness :
    absentStack.describeRes.1 = false
      ∧ ((absenceMarker absentStack.describeRes.2 = true →
          delete_stack "demo" absentStack =
            (true, [Ev.describeStack "demo", Ev.msgSkipAbsent "demo"]))
        ∧ (absenceMarker absentStack.describeRes.2 = false →
            delete_stack "demo" absentStack = (false, [Ev.describeStack "demo"]))) :=
  ⟨rfl, c5_absent_stack_short_circuit "demo" absentStack rfl⟩

/-- Fixture: a stack whose status never becomes terminal. -/
def stalledPolls : Nat → Bool × String := fun _ => (true, "DELETE_IN_PROGRESS")

/-- C6: the status poll loop always terminates: for every sequence of
backend responses the instrumented loop agrees with
`wait_for_stack_deletion`, it issues at most 120 status queries (15-unit
interval against the 1800-unit deadline), and if every poll up to the
deadline stays non-terminal the loop times out, returning failure after
exactly 120 polls. -/
theorem c6_poll_loop_terminates (polls : Nat → Bool × String) :
    (waitTrace polls).1 = wait_for_stack_deletion polls
      ∧ (waitTrace polls).2 ≤ 120
      ∧ ((∀ i, i < 120 → pollStep (polls i) = none) → waitTrace polls = (false, 120)) := by
  refine ⟨waitLoopTrace_fst polls 120 0, waitLoopTrace_count_le polls 120 0, ?_⟩
  intro h
  apply waitLoopTrace_timeout polls 120 0 (by norm_num)
  intro j hj
  simpa using h j hj

/-- C6 witness: a stack stuck in DELETE_IN_PROGRESS times out after exactly
120 polls. -/
theorem c6_poll_loop_witness :
    (waitTrace stalledPolls).1 = wait_for_stack_deletion stalledPolls
      ∧ (waitTrace stalledPolls).2 ≤ 120
      ∧ waitTrace stalledPolls = (false, 120) :=
  ⟨(c6_poll_loop_terminates stalledPolls).1, (c6_poll_loop_terminates stalledPolls).2.1,
    (c6_poll_loop_terminates stalledPolls).2.2 (fun _ _ => rfl)⟩

/-- C7: at the first poll not preceded by a terminal one, a successful
status query whose stripped text reads DELETE_COMPLETE makes the loop return
success immediately (exactly that many polls are issued), DELETE_FAILED
makes it return failure immediately, and any other status text leaves the
iteration in the checking state. -/
theorem c7_terminal_status_transitions (polls : Nat → Bool × String) (i : Nat)
    (hi : i < 120) (hprev : ∀ j, j < i → pollStep (polls j) = none)
    (hok : (polls i).1 = true) :
    (strip (polls i).2 = "DELETE_COMPLETE" → waitTrace polls = (true, i + 1))
      ∧ (strip (polls i).2 = "DELETE_FAILED" → waitTrace polls = (false, i + 1))
      ∧ (strip (polls i).2 ≠ "DELETE_COMPLETE" → strip (polls i).2 ≠ "DELETE_FAILED" →
          pollStep (polls i) = none) := by
  have hrun : ∀ b, pollStep (polls i) = some b → waitTrace polls = (b, i + 1) := by
    intro b hb
    apply waitLoopTrace_hit polls i 120 0 (by norm_num) hi
    · intro j hj
      simpa using hprev j hj
    · simpa using hb
  refine ⟨?_, ?_, ?_⟩
  · intro hdc
    apply hrun
    have hne : (polls i).2 ≠ "" := by
      intro he
      rw [he] at hdc
      exact absurd hdc (by decide)
    simp [pollStep, hok, hne, hdc]
  · intro hdf
    apply hrun
    have hne : (polls i).2 ≠ "" := by
      intro he
      rw [he] at hdf
      exact absurd hdf (by decide)
    have hnc : ¬ strip (polls i).2 = "DELETE_COMPLETE" := by
      rw [hdf]; decide
    simp [pollStep, hok, hne, hnc, hdf]
  · intro hnc hnf
    by_cases he : (polls i).2 = ""
    · simp [pollStep, hok, he]
    · simp [pollStep, hok, he, hnc, hnf]

/-- Fixture: first poll non-terminal, second poll DELETE_COMPLETE with
surrounding whitespace. -/
def c7Polls : Nat → Bool × String := fun n =>
  if n = 0 then (true, "DELETE_IN_PROGRESS") else (true, " DELETE_COMPLETE ")

/-- C7 witness: at poll index 1 of `c7Polls` the loop returns success with
exactly two polls issued. -/
theorem c7_terminal_status_witness :
    ((strip (c7Polls 1).2 = "DELETE_COMPLETE" → waitTrace c7Polls = (true, 2))
        ∧ (strip (c7Polls 1).2 = "DELETE_FAILED" → waitTrace c7Polls = (false, 2))
        ∧ (strip (c7Polls 1).2 ≠ "DELETE_COMPLETE" → strip (c7Polls 1).2 ≠ "DELETE_FAILED" →
            pollStep (c7Polls 1) = none))
      ∧ waitTrace c7Polls = (true, 2) := by
  have h := c7_terminal_status_transitions c7Polls 1 (by norm_num)
    (by
      intro j hj
      have hj0 : j = 0 := by omega
      subst hj0
      rfl)
    (by rfl)
  exact ⟨h, h.1 (by decide)⟩

lemma run_cleanup_parallel (cfg : Config) (env : Env) (ex : ExnFlags) :
    run_cleanup cfg "DELETE" true env ex =
      { result := (delete_agent_stacks_parallel cfg env ex).1
            && (delete_stack cfg.cognito env.cognitoStack).1
            && (cleanup_s3_bucket cfg.smithy_models_bucket env.bucket).1
        confirmed := true
        events := (delete_agent_stacks_parallel cfg env ex).2.1
            ++ (delete_stack cfg.cognito env.cognitoStack).2
            ++ (cleanup_s3_bucket cfg.smithy_models_bucket env.bucket).2
            ++ (if env.configExists then [Ev.unlinkConfig] else [])
        outcomes := (delete_agent_stacks_parallel cfg env ex).2.2
            ++ [("Cognito Stack", (delete_stack cfg.cognito env.cognitoStack).1),
                ("S3 Bucket", (cleanup_s3_bucket cfg.smithy_models_bucket env.bucket).1)]
        configRemoved := env.configExists && env.unlinkOk } := rfl

lemma run_cleanup_sequential (cfg : Config) (env : Env) (ex : ExnFlags) :
    run_cleanup cfg "DELETE" false env ex =
      { result := ((delete_stack cfg.host_agent env.hostStack).1
              && (delete_stack cfg.web_search_agent env.webStack).1
              && (delete_stack cfg.monitoring_agent env.monStack).1)
            && (delete_stack cfg.cognito env.cognitoStack).1
            && (cleanup_s3_bucket cfg.smithy_models_bucket env.bucket).1
        confirmed := true
        events := ((delete_stack cfg.host_agent env.hostStack).2
              ++ (delete_stack cfg.web_search_agent env.webStack).2
              ++ (delete_stack cfg.monitoring_agent env.monStack).2)
            ++ (delete_stack cfg.cognito env.cognitoStack).2
            ++ (cleanup_s3_bucket cfg.smithy_models_bucket env.bucket).2
            ++ (if env.configExists then [Ev.unlinkConfig] else [])
        outcomes := [("Host Agent Stack", (delete_stack cfg.host_agent env.hostStack).1),
              ("Web Search Agent Stack", (delete_stack cfg.web_search_agent env.webStack).1),
              ("Monitoring Agent Stack", (delete_stack cfg.monitoring_agent env.monStack).1)]
            ++ [("Cognito Stack", (delete_stack cfg.cognito env.cognitoStack).1),
                ("S3 Bucket", (cleanup_s3_bucket cfg.smithy_models_bucket env.bucket).1)]
        configRemoved := env.configExists && env.unlinkOk } := rfl

lemma delete_stack_parallel_outcome (sn st : String) (env : StackEnv) (r : Bool) :
    (delete_stack_parallel sn st env r).1 = (st, !r && (delete_stack sn env).1) := by
  cases r <;> simp [delete_stack_parallel]

lemma delete_agent_stacks_parallel_outcomes (cfg : Config) (env : Env) (ex : ExnFlags) :
    (delete_agent_stacks_parallel cfg env ex).2.2 =
      [("Host Agent Stack", !ex.host && (delete_stack cfg.host_agent env.hostStack).1),
        ("Web Search Agent Stack", !ex.web && (delete_stack cfg.web_search_agent env.webStack).1),
        ("Monitoring Agent Stack", !ex.mon && (delete_stack cfg.monitoring_agent env.monStack).1)] := by
  simp [delete_agent_stacks_parallel, delete_stack_parallel_outcome]

lemma delete_agent_stacks_parallel_result (cfg : Config) (env : Env) (ex : ExnFlags) :
    (delete_agent_stacks_parallel cfg env ex).1 =
      ((!ex.host && (delete_stack cfg.host_agent env.hostStack).1)
        && (!ex.web && (delete_stack cfg.web_search_agent env.webStack).1)
        && (!ex.mon && (delete_stack cfg.monitoring_agent env.monStack).1)) := by
  simp [delete_agent_stacks_parallel, delete_stack_parallel_outcome]

/-- C8: with the confirmation given, both execution modes attempt every task
in the plan and produce exactly one outcome per task (the three agent
stacks, the Cognito stack, and the bucket); the run result is the
conjunction of all five success flags; and in parallel mode an exception in
one agent-stack task is converted into a failed outcome for that task
without changing its siblings' outcomes. -/
theorem c8_no_task_aborts_run (cfg : Config) (env : Env) (ex : ExnFlags) (p : Bool) :
    ((run_cleanup cfg "DELETE" p env ex).outcomes.map Prod.fst =
        ["Host Agent Stack", "Web Search Agent Stack", "Monitoring Agent Stack",
          "Cognito Stack", "S3 Bucket"])
      ∧ ((run_cleanup cfg "DELETE" p env ex).result =
          (run_cleanup cfg "DELETE" p env ex).outcomes.all (fun o => o.2))
      ∧ ((run_cleanup cfg "DELETE" true env ex).outcomes =
          [("Host Agent Stack", !ex.host && (delete_stack cfg.host_agent env.hostStack).1),
            ("Web Search Agent Stack",
              !ex.web && (delete_stack cfg.web_search_agent env.webStack).1),
            ("Monitoring Agent Stack",
              !ex.mon && (delete_stack cfg.monitoring_agent env.monStack).1),
            ("Cognito Stack", (delete_stack cfg.cognito env.cognitoStack).1),
            ("S3 Bucket", (cleanup_s3_bucket cfg.smithy_models_bucket env.bucket).1)]) := by
  refine ⟨?_, ?_, ?_⟩
  · cases p with
    | true =>
      rw [run_cleanup_parallel, delete_agent_stacks_parallel_outcomes]
      simp
    | false =>
      rw [run_cleanup_sequential]
      simp
  · cases p with
    | true =>
      rw [run_cleanup_parallel, delete_agent_stacks_parallel_outcomes,
        delete_agent_stacks_parallel_result]
      simp [Bool.and_assoc]
    | false =>
      rw [run_cleanup_sequential]
      simp [Bool.and_assoc]
  · rw [run_cleanup_parallel, delete_agent_stacks_parallel_outcomes]
    simp

lemma delete_s3_bucket_events (b : String) (rb : Bool × String) :
    (delete_s3_bucket b rb).2 = [Ev.removeBucketCmd b] := by
  unfold delete_s3_bucket
  split
  · rfl
  · split <;> rfl

/-- C9: for a bucket whose existence check succeeds, the bucket delete call
is issued no matter how the empty step fared, and the cleanup outcome equals
the delete step's outcome alone. -/
theorem c9_empty_never_blocks_delete (bucket_name : String) (env : BucketEnv)
    (_h : env.headRes.1 = true) :
    Ev.removeBucketCmd bucket_name ∈ (cleanup_s3_bucket bucket_name env).2
      ∧ (cleanup_s3_bucket bucket_name env).1 = (delete_s3_bucket bucket_name env.rbRes).1 := by
  constructor
  · unfold cleanup_s3_bucket
    simp [delete_s3_bucket_events]
  · rfl

/-- C9 witness: a bucket that exists still gets its delete call. -/
theorem c9_empty_never_blocks_witness :
    okBucket.headRes.1 = true
      ∧ (Ev.removeBucketCmd "models" ∈ (cleanup_s3_bucket "models" okBucket).2
        ∧ (cleanup_s3_bucket "models" okBucket).1 =
            (delete_s3_bucket "models" okBucket.rbRes).1) :=
  ⟨rfl, c9_empty_never_blocks_delete "models" okBucket rfl⟩

/-- C10: the typed confirmation is compared after whitespace stripping: a raw
line that strips to "DELETE" is captured as "DELETE", which confirms the run;
"delete" is captured verbatim and, like every captured value other than
"DELETE", cancels the run; and the required no-default prompt never returns
an empty string, consuming further lines instead. -/
theorem c10_confirmation_strip (cfg : Config) (p : Bool) (env : Env) (ex : ExnFlags) :
    (∀ s rest, strip s = "DELETE" → get_input none true (s :: rest) = some "DELETE")
      ∧ (run_cleanup cfg "DELETE" p env ex).confirmed = true
      ∧ (∀ rest, get_input none true ("delete" :: rest) = some "delete")
      ∧ (∀ c, c ≠ "DELETE" →
          (run_cleanup cfg c p env ex).confirmed = false
            ∧ (run_cleanup cfg c p env ex).result = false)
      ∧ (∀ inputs r, get_input none true inputs = some r → r ≠ "") := by
  refine ⟨?_, ?_, ?_, ?_, ?_⟩
  · intro s rest hs
    simp [get_input, hs]
  · cases p with
    | true => rw [run_cleanup_parallel]
    | false => rw [run_cleanup_sequential]
  · intro rest
    rfl
  · intro c hc
    rw [run_cleanup_cancel cfg c p env ex hc]
    exact ⟨rfl, rfl⟩
  · intro inputs
    induction inputs with
    | nil =>
      intro r hr
      simp [get_input] at hr
    | cons v rest ih =>
      intro r hr
      by_cases hv : strip v = ""
      · have hg : get_input none true (v :: rest) = get_input none true rest := by
          simp [get_input, hv, defaultTruthy]
        rw [hg] at hr
        exact ih r hr
      · have hg : get_input none true (v :: rest) = some (strip v) := by
          simp [get_input, hv]
        rw [hg] at hr
        injection hr with hr
        exact fun h0 => hv (hr.trans h0)

/-- C10 witness: " DELETE " confirms, "delete" is captured verbatim and
cancels, and a blank line is skipped rather than returned. -/
theorem c10_confirmation_witness :
    get_input none true [" DELETE "] = some "DELETE"
      ∧ (run_cleanup demoConfig "DELETE" true allAbsentEnv noExn).confirmed = true
      ∧ get_input none true ["delete"] = some "delete"
      ∧ ((run_cleanup demoConfig "delete" true allAbsentEnv noExn).confirmed = false
        ∧ (run_cleanup demoConfig "delete" true allAbsentEnv noExn).result = false)
      ∧ ("x" : String) ≠ "" := by
  have h := c10_confirmation_strip demoConfig true allAbsentEnv noExn
  exact ⟨h.1 " DELETE " [] (by decide), h.2.1, h.2.2.1 [], h.2.2.2.1 "delete" (by decide),
    h.2.2.2.2 ["  ", "x"] "x" (by decide)⟩

end Cleanup
